import Mathlib

/-!
Verification development for the rp-lockbox instrument control protocol client
(`examples/python/rp_lockbox.py` and the retry layer in `examples/python/widgets.py`).

The embedding is shallow: the byte stream handed to `recv` is modelled as the
list of successive read results (each a list of characters), the socket handle
as an `Option SockState` field of a `Session` record, Python exceptions as an
explicit `PyError` sum carried in `Except`, and Python value-to-text conversion
(`int(...)`, `float(...)`, `str.format`) as executable Lean functions.
-/

namespace RpLockbox

/-- The two-byte message delimiter CR LF (`RedPitaya.delimiter`, rp_lockbox.py line 21). -/
def delimiter : List Char := ['\r', '\n']

/-- Python slice `s[-2:]` on a character list: the last two characters, or the
whole list when it is shorter than two. -/
def lastTwo (l : List Char) : List Char := l.drop (l.length - 2)

/-- Python slice `s[:-2]` on a character list: everything but the last two
characters. -/
def dropLastTwo (l : List Char) : List Char := l.take (l.length - 2)

/-- Loop of `RedPitaya.rx_txt` (rp_lockbox.py lines 61-69).  `msg` is the
accumulated buffer; the second argument is the list of successive `recv`
results (a `recv` on a peer-closed socket yields the empty chunk).  Each
iteration appends the chunk to the buffer and breaks exactly when the chunk is
non-empty and its last two characters (`chunk[-2:]`) equal the delimiter, in
which case the buffer with its final two characters removed (`msg[:-2]`) is
returned.  When the reads are exhausted without the break having fired the
source loop would issue another blocking `recv`; that is modelled as `none`. -/
def rx_txt_loop : List Char → List (List Char) → Option (List Char)
  | _, [] => none
  | msg, chunk :: rest =>
    if chunk ≠ [] ∧ lastTwo chunk = delimiter then some (dropLastTwo (msg ++ chunk))
    else rx_txt_loop (msg ++ chunk) rest

/-- `RedPitaya.rx_txt`: run the receive loop starting from the empty buffer. -/
def rx_txt (reads : List (List Char)) : Option (List Char) := rx_txt_loop [] reads

/-- OS-level state of a socket object held by the session: freshly created but
never connected, or connected. -/
inductive SockState
  | unconnected
  | connected
  deriving DecidableEq, Repr

/-- A `RedPitaya` session: the configured endpoint plus the `_socket`
attribute, which is either `None` or a socket handle. -/
structure Session where
  host : String
  port : Nat
  sock : Option SockState
  deriving DecidableEq, Repr

/-- The Python exceptions the embedded operations can raise.
`connectionError` covers `ConnectionError` and its subclasses;
`osError` covers other `OSError`s (`socket.error`) such as `ENOTCONN`;
`attributeError` is raised by attribute access on `None`;
`valueError` is raised by failing `int(...)` / `float(...)` conversions. -/
inductive PyError
  | connectionError
  | osError
  | attributeError
  | valueError
  deriving DecidableEq, Repr

/-- `RedPitaya.connect` (rp_lockbox.py lines 39-45): assign a fresh, not yet
connected socket object to `_socket`, then attempt the OS-level connect, whose
outcome is the parameter `ok`.  On failure the OS error propagates as a
`ConnectionError` while `_socket` keeps the fresh unconnected handle. -/
def connect (s : Session) (ok : Bool) : Session × Except PyError Unit :=
  let s1 : Session := { s with sock := some SockState.unconnected }
  if ok then ({ s1 with sock := some SockState.connected }, Except.ok ())
  else (s1, Except.error PyError.connectionError)

/-- `RedPitaya.__init__` (rp_lockbox.py lines 23-37): record host and port,
set `_socket` to `None`, then call `connect`. -/
def init (host : String) (port : Nat) (ok : Bool) : Session × Except PyError Unit :=
  connect { host := host, port := port, sock := none } ok

/-- `RedPitaya.close` via `__del__` (rp_lockbox.py lines 47-54): close the
socket object if one is present, then set `_socket` to `None`; no path
raises. -/
def close (s : Session) : Session × Except PyError Unit :=
  ({ s with sock := none }, Except.ok ())

/-- `RedPitaya.tx_txt` (rp_lockbox.py lines 71-77): a single
`_socket.send((msg + delimiter).encode())`.  On success the result carries the
exact wire bytes of that one send.  When `_socket` is `None` (after `close`)
the attribute access `None.send` raises `AttributeError`; a handle that never
connected raises a plain `OSError` (`ENOTCONN`). -/
def tx_txt (s : Session) (msg : String) : Session × Except PyError String :=
  match s.sock with
  | none => (s, Except.error PyError.attributeError)
  | some SockState.unconnected => (s, Except.error PyError.osError)
  | some SockState.connected => (s, Except.ok (msg ++ "\r\n"))

/-- A Python value passed as the `state` argument of a boolean setter: the
documented `bool`, or any `int` (Qt check boxes pass 0, 1 or 2). -/
inductive PyVal
  | pybool (b : Bool)
  | pyint (n : Int)
  deriving DecidableEq, Repr

/-- Python `int(state)`: `True` is 1, `False` is 0, an `int` is itself. -/
def pyInt : PyVal → Int
  | PyVal.pybool b => if b then 1 else 0
  | PyVal.pyint n => n

/-- Command text of `set_output_state` (rp_lockbox.py line 92):
`'OUTPUT{}:STATE {}'.format(num_out, int(state))`. -/
def set_output_state_cmd (num_out : Nat) (state : PyVal) : String :=
  "OUTPUT" ++ toString num_out ++ ":STATE " ++ toString (pyInt state)

/-- Query text of `get_output_state` (rp_lockbox.py line 99). -/
def get_output_state_query (num_out : Nat) : String :=
  "OUTPUT" ++ toString num_out ++ ":STATE?"

/-- Command text of `set_generator_frequency` (rp_lockbox.py line 107).  The
`frequency` argument is embedded by its Python rendering `str(frequency)`,
which is what `'{}'.format` interpolates; Python renders the float `1000.0`
as the string `1000.0`. -/
def set_generator_frequency_cmd (num_out : Nat) (frequency : String) : String :=
  "SOUR" ++ toString num_out ++ ":FREQ:FIX " ++ frequency

/-- Query text of `get_generator_frequency` (rp_lockbox.py line 114). -/
def get_generator_frequency_query (num_out : Nat) : String :=
  "SOUR" ++ toString num_out ++ ":FREQ:FIX?"

/-- Command text of `set_setpoint` (rp_lockbox.py line 165); the value is
embedded by its Python rendering. -/
def set_setpoint_cmd (num_in num_out : Nat) (value : String) : String :=
  "PID:IN" ++ toString num_in ++ ":OUT" ++ toString num_out ++ ":SETPoint " ++ value

/-- Command text of `set_int_reset_state` (rp_lockbox.py line 219). -/
def set_int_reset_state_cmd (num_in num_out : Nat) (state : PyVal) : String :=
  "PID:IN" ++ toString num_in ++ ":OUT" ++ toString num_out ++ ":INT:RES " ++
    toString (pyInt state)

/-- Command text of `set_int_hold_state` (rp_lockbox.py line 234). -/
def set_int_hold_state_cmd (num_in num_out : Nat) (state : PyVal) : String :=
  "PID:IN" ++ toString num_in ++ ":OUT" ++ toString num_out ++ ":INT:HOLD " ++
    toString (pyInt state)

/-- Command text of `set_int_auto_state` (rp_lockbox.py line 251). -/
def set_int_auto_state_cmd (num_in num_out : Nat) (state : PyVal) : String :=
  "PID:IN" ++ toString num_in ++ ":OUT" ++ toString num_out ++ ":INT:AUTO " ++
    toString (pyInt state)

/-- Command text of `set_inv_state` (rp_lockbox.py line 267). -/
def set_inv_state_cmd (num_in num_out : Nat) (state : PyVal) : String :=
  "PID:IN" ++ toString num_in ++ ":OUT" ++ toString num_out ++ ":INV " ++
    toString (pyInt state)

/-- Command text of `set_relock_state` (rp_lockbox.py line 286). -/
def set_relock_state_cmd (num_in num_out : Nat) (state : PyVal) : String :=
  "PID:IN" ++ toString num_in ++ ":OUT" ++ toString num_out ++ ":REL " ++
    toString (pyInt state)

/-- Command text of `set_relock_minimum` (rp_lockbox.py line 315); the value
is embedded by its Python rendering. -/
def set_relock_minimum_cmd (num_in num_out : Nat) (minimum : String) : String :=
  "PID:IN" ++ toString num_in ++ ":OUT" ++ toString num_out ++ ":REL:MIN " ++ minimum

/-- Command text of `set_relock_maximum` (rp_lockbox.py line 329); the value
is embedded by its Python rendering. -/
def set_relock_maximum_cmd (num_in num_out : Nat) (maximum : String) : String :=
  "PID:IN" ++ toString num_in ++ ":OUT" ++ toString num_out ++ ":REL:MAX " ++ maximum

/-- Decode step of `get_int_reset_state` (rp_lockbox.py line 227): the framed
response text is compared against the literal `ON`. -/
def get_int_reset_state_decode (response : String) : Bool := response == "ON"

/-- Numeric value of a list of decimal digit characters. -/
def digitsToNat (l : List Char) : Nat :=
  l.foldl (fun a c => 10 * a + (c.toNat - 48)) 0

/-- Parse a non-empty all-digit character list, else `none`. -/
def parseUnsigned (l : List Char) : Option Nat :=
  if l ≠ [] ∧ l.all (fun c => c.isDigit) then some (digitsToNat l) else none

/-- Model of Python `int(str)` on the response strings of this protocol: an
optional sign followed by a non-empty digit string; anything else raises
`ValueError` (modelled as `none`). -/
def pyIntParse (s : String) : Option Int :=
  match s.data with
  | '+' :: rest => (parseUnsigned rest).map Int.ofNat
  | '-' :: rest => (parseUnsigned rest).map (fun n => -(n : Int))
  | l => (parseUnsigned l).map Int.ofNat

/-- Mantissa of a decimal literal: digits, optionally followed by a point and
further digits; at least one digit must be present overall. -/
def parseMantissa (l : List Char) : Option Rat :=
  match l.span (fun c => c.isDigit) with
  | (ip, []) => if ip ≠ [] then some ((digitsToNat ip : Nat) : Rat) else none
  | (ip, '.' :: fp) =>
      if fp.all (fun c => c.isDigit) ∧ (ip ≠ [] ∨ fp ≠ []) then
        some (((digitsToNat ip : Nat) : Rat) +
          ((digitsToNat fp : Nat) : Rat) / ((10 : Rat) ^ fp.length))
      else none
  | _ => none

/-- Exponent part of a decimal literal: an optional sign and digits. -/
def parseExponent (l : List Char) : Option Int :=
  match l with
  | '+' :: rest => (parseUnsigned rest).map Int.ofNat
  | '-' :: rest => (parseUnsigned rest).map (fun n => -(n : Int))
  | _ => (parseUnsigned l).map Int.ofNat

/-- Unsigned part of Python `float(str)`: mantissa with an optional
`e`/`E`-exponent. -/
def parseUnsignedFloat (l : List Char) : Option Rat :=
  match l.span (fun c => !(c == 'e') && !(c == 'E')) with
  | (m, []) => parseMantissa m
  | (m, _ :: ex) =>
      match parseMantissa m, parseExponent ex with
      | some mv, some ev => some (mv * (10 : Rat) ^ ev)
      | _, _ => none

/-- Model of Python `float(str)` on the decimal literals this protocol
exchanges: optional sign, digits with optional fractional part, optional
exponent.  Any other text (such as `ON`) raises `ValueError`, modelled as
`none`. -/
def pyFloat (s : String) : Option Rat :=
  match s.data with
  | '+' :: rest => parseUnsignedFloat rest
  | '-' :: rest => (parseUnsignedFloat rest).map Neg.neg
  | l => parseUnsignedFloat l

/-- Outcome trace of one getter call as issued by `update_parameters`
(widgets.py): the decoded result or the propagated exception, the queries
sent on the wire, and how many times the reconnect callback ran. -/
structure GetResult (α : Type) where
  result : Except PyError α
  sent : List String
  reconnects : Nat

/-- `get_generator_frequency` (rp_lockbox.py line 114) as called from
`OutputGroup.update_parameters` (widgets.py line 458): one query is sent, the
framed response is decoded with `float(...)`, and there is no surrounding
`try`/`except` anywhere on the getter path, so a decode failure propagates
and the reconnect callback never runs. -/
def run_get_generator_frequency (num_out : Nat) (response : String) : GetResult Rat :=
  { result :=
      match pyFloat response with
      | some v => Except.ok v
      | none => Except.error PyError.valueError
    sent := [get_generator_frequency_query num_out]
    reconnects := 0 }

/-- `get_output_state` (rp_lockbox.py lines 94-100) as called from
`OutputGroup.update_parameters` (widgets.py line 456): the framed response is
decoded with `bool(int(response))`; no handler wraps the call. -/
def run_get_output_state (num_out : Nat) (response : String) : GetResult Bool :=
  { result :=
      match pyIntParse response with
      | some n => Except.ok (n != 0)
      | none => Except.error PyError.valueError
    sent := [get_output_state_query num_out]
    reconnects := 0 }

/-- One scripted transport event seen by a widget setter handler: the outcome
of a send attempt (`sOk` / `sErr`, where `sErr` is a raised `socket.error`)
or the outcome of a run of the injected reconnect callback (`rOk` / `rErr`,
where `rErr` is a raised `ConnectionError`). -/
inductive Ev
  | sOk
  | sErr
  | rOk
  | rErr
  deriving DecidableEq, Repr

/-- Outcome trace of one widget setter handler call: the result or propagated
exception, the commands whose send was attempted, in order, and how many
times the reconnect callback ran. -/
structure SetResult where
  result : Except PyError Unit
  sent : List String
  reconnects : Nat
  deriving Repr

/-- The common shape of the widget setter handlers (widgets.py, e.g.
`PIDGroup.setpoint` lines 125-131, `RelockGroup.relock_min` lines 295-301):
try the setter once; on `socket.error`, log, run the injected reconnect
callback (`_warn_and_reconnect`), and recursively call the retry handler.
`retryOf` maps the command of the current handler to the command issued by
its `except`-branch retry call: the identity for every handler in the source
except `RelockGroup.relock_min`, whose `except` branch calls
`self.relock_max(minimum)` (widgets.py line 301).  An exception raised by the
reconnect callback propagates out of the `except` block.  `none` means the
event script does not cover the run. -/
def runSetter (retryOf : String → String) : String → List Ev → Option SetResult
  | cmd, Ev.sOk :: _ => some { result := Except.ok (), sent := [cmd], reconnects := 0 }
  | cmd, Ev.sErr :: Ev.rOk :: rest =>
      match runSetter retryOf (retryOf cmd) rest with
      | some r => some { r with sent := cmd :: r.sent, reconnects := r.reconnects + 1 }
      | none => none
  | cmd, Ev.sErr :: Ev.rErr :: _ =>
      some { result := Except.error PyError.connectionError, sent := [cmd], reconnects := 1 }
  | _, _ => none

/-- The spec's session invariant: the session is disconnected with no handle,
or holds one connected handle. -/
def sessionInvariant (s : Session) : Prop :=
  s.sock = none ∨ s.sock = some SockState.connected

instance (s : Session) : Decidable (sessionInvariant s) := by
  unfold sessionInvariant
  infer_instance

/-- Claim C1.  The claim states that `rx_txt` reassembles the payload for
every split of `payload ++ delimiter` into reads, the end-of-message check
being against the accumulated buffer.  The code instead checks `chunk[-2:]`,
the latest chunk alone (rp_lockbox.py line 66), so for the split that
delivers the final `\n` as a one-byte read the break never fires even though
the buffer ends with the delimiter, and the loop issues a further blocking
read (`none`); splits whose final read carries both delimiter bytes are
reassembled correctly. -/
theorem rx_txt_split_check :
    rx_txt [['A', '\r'], ['\n']] = none
    ∧ rx_txt [['A', '\r', '\n']] = some ['A']
    ∧ rx_txt [['A'], ['\r', '\n']] = some ['A'] := by decide

/-- Claim C2.  The claim states that a zero-length read while the buffer is
delimiter-incomplete makes `rx_txt` fail with `ConnectionError`.  In the code
an empty chunk falsifies the break condition `if chunk and ...`
(rp_lockbox.py line 66) and the loop simply runs again: for every buffer
content and every number of consecutive zero-length reads the loop neither
returns nor raises, so on a peer-closed socket (whose reads are all
zero-length) it spins forever. -/
theorem rx_txt_zero_reads_loop : ∀ (msg : List Char) (n : Nat),
    rx_txt_loop msg (List.replicate n []) = none := by
  intro msg n
  induction n generalizing msg with
  | zero => rfl
  | succ n ih =>
      rw [List.replicate_succ]
      simpa [rx_txt_loop] using ih msg

/-- Claim C3.  The claim states that every widget setter re-issues the exact
same operation after a reconnect.  `RelockGroup.relock_min` (widgets.py
line 301) instead calls `self.relock_max(minimum)` in its `except` branch:
on the trace first-send-fails / reconnect-succeeds / second-send-succeeds
the two attempted commands are `PID:IN1:OUT2:REL:MIN 0.25` and then
`PID:IN1:OUT2:REL:MAX 0.25` — a different parameter.  For the handlers whose
retry is the identity (e.g. `PIDGroup.setpoint`) the same command is sent
twice with one reconnect, and when the reconnect callback itself raises the
`ConnectionError` propagates after a single send attempt. -/
theorem setter_retry_trace :
    runSetter (fun _ => set_relock_maximum_cmd 1 2 "0.25")
        (set_relock_minimum_cmd 1 2 "0.25") [Ev.sErr, Ev.rOk, Ev.sOk]
      = some { result := Except.ok (),
               sent := ["PID:IN1:OUT2:REL:MIN 0.25", "PID:IN1:OUT2:REL:MAX 0.25"],
               reconnects := 1 }
    ∧ (∀ cmd, runSetter id cmd [Ev.sErr, Ev.rOk, Ev.sOk]
        = some { result := Except.ok (), sent := [cmd, cmd], reconnects := 1 })
    ∧ (∀ f cmd, runSetter f cmd [Ev.sErr, Ev.rErr]
        = some { result := Except.error PyError.connectionError, sent := [cmd],
                 reconnects := 1 }) :=
  ⟨rfl, fun _ => rfl, fun _ _ => rfl⟩

/-- Claim C4.  Calling `set_generator_frequency(1, 1000.0)` on a connected
session performs exactly one send whose wire bytes are
`SOUR1:FREQ:FIX 1000.0\r\n`: the formatted command (Python renders the float
`1000.0` as `1000.0`) with the delimiter appended, and nothing else. -/
theorem set_generator_frequency_wire :
    (tx_txt { host := "rp", port := 5000, sock := some SockState.connected }
        (set_generator_frequency_cmd 1 "1000.0")).2
      = Except.ok "SOUR1:FREQ:FIX 1000.0\r\n" := rfl

/-- Claim C5.  The two per-parameter boolean encodings are applied correctly
and not conflated: `get_int_reset_state` decodes by comparing the response
text against `ON` (true exactly for `ON`, false for `OFF`), while
`set_output_state` encodes its state through `int(state)`, sending value text
`1` for `True` and `0` for `False`. -/
theorem boolean_encodings_distinct :
    get_int_reset_state_decode "ON" = true
    ∧ get_int_reset_state_decode "OFF" = false
    ∧ set_output_state_cmd 1 (PyVal.pybool true) = "OUTPUT1:STATE 1"
    ∧ set_output_state_cmd 1 (PyVal.pybool false) = "OUTPUT1:STATE 0" :=
  ⟨rfl, rfl, rfl, rfl⟩

/-- Claim C6, counterexample.  After `close()` the `_socket` attribute is
`None`, so a subsequent `tx_txt` raises `AttributeError` (attribute access on
`None`), which is not `ConnectionError` as the claim states. -/
theorem tx_after_close_not_connectionError :
    (tx_txt (close { host := "rp", port := 5000, sock := some SockState.connected }).1
        "SOUR1:FREQ:FIX 1000.0").2 = Except.error PyError.attributeError
    ∧ PyError.attributeError ≠ PyError.connectionError :=
  ⟨rfl, by decide⟩

/-- Claim C6, amended.  On a connected session `tx_txt` writes exactly the
message with the delimiter appended; on a session that has been closed
(`_socket` is `None`) it fails with `AttributeError`, not `ConnectionError`. -/
theorem tx_txt_wire_and_close_behavior :
    (∀ (s : Session) (msg : String), s.sock = some SockState.connected →
      (tx_txt s msg).2 = Except.ok (msg ++ "\r\n"))
    ∧ (∀ (s : Session) (msg : String),
      (tx_txt (close s).1 msg).2 = Except.error PyError.attributeError) := by
  constructor
  · intro s msg h
    simp [tx_txt, h]
  · intro s msg
    rfl

/-- Claim C6, witness for the amended theorem at a concrete connected
session and message. -/
theorem tx_txt_wire_and_close_behavior_witness :
    (tx_txt { host := "rp", port := 5000, sock := some SockState.connected }
        "PID:IN1:OUT1:KP 2.5").2 = Except.ok "PID:IN1:OUT1:KP 2.5\r\n" :=
  tx_txt_wire_and_close_behavior.1
    { host := "rp", port := 5000, sock := some SockState.connected }
    "PID:IN1:OUT1:KP 2.5" rfl

/-- Claim C7, counterexample.  `connect` assigns a fresh socket object to
`_socket` before the OS-level connect (rp_lockbox.py line 41); when the
connect fails the session is left holding a handle that is not an open
connection, violating the claimed invariant. -/
theorem failed_connect_breaks_invariant :
    ((connect { host := "rp", port := 5000, sock := none } false).1).sock
        = some SockState.unconnected
    ∧ ¬ sessionInvariant ((connect { host := "rp", port := 5000, sock := none } false).1) :=
  ⟨rfl, by decide⟩

/-- Claim C7, amended.  After construction or `connect` that succeeds the
session holds one connected handle; after `close` it holds no handle (the
invariant holds); parameter operations (`tx_txt`) leave the handle untouched;
but after a failed `connect` the session holds a fresh handle that never
connected — the ambiguous state the original claim rules out. -/
theorem session_invariant_amended :
    (∀ host port, ((init host port true).1).sock = some SockState.connected)
    ∧ (∀ s, ((connect s true).1).sock = some SockState.connected)
    ∧ (∀ s, sessionInvariant (close s).1)
    ∧ (∀ (s : Session) (msg : String), (tx_txt s msg).1 = s)
    ∧ (∀ s, ((connect s false).1).sock = some SockState.unconnected) := by
  refine ⟨fun _ _ => rfl, fun _ => rfl, fun _ => Or.inl rfl, ?_, fun _ => rfl⟩
  intro s msg
  cases h : s.sock with
  | none => simp [tx_txt, h]
  | some st => cases st <;> simp [tx_txt, h]

/-- Claim C8.  `close()` never fails, leaves the session with no socket
handle, and is idempotent: closing an already-closed session produces the
same state and result. -/
theorem close_idempotent_never_fails : ∀ s : Session,
    (close s).2 = Except.ok () ∧ ((close s).1).sock = none
    ∧ close ((close s).1) = close s :=
  fun _ => ⟨rfl, rfl, rfl⟩

/-- Claim C9.  When the device response cannot be decoded to the parameter's
semantic type — `float(...)` failing for `get_generator_frequency`,
`int(...)` failing for `get_output_state` (e.g. on the text `ON`) — the
decode failure propagates to the caller as the operation's result and the
reconnect callback is never invoked: there is no retry path for getters. -/
theorem decode_failure_propagates : ∀ (num_out : Nat) (response : String),
    (pyFloat response = none →
      (run_get_generator_frequency num_out response).result
          = Except.error PyError.valueError
      ∧ (run_get_generator_frequency num_out response).reconnects = 0)
    ∧ (pyIntParse response = none →
      (run_get_output_state num_out response).result = Except.error PyError.valueError
      ∧ (run_get_output_state num_out response).reconnects = 0) := by
  intro num_out response
  constructor
  · intro h
    exact ⟨by simp [run_get_generator_frequency, h], rfl⟩
  · intro h
    exact ⟨by simp [run_get_output_state, h], rfl⟩

/-- Claim C9, witness at the concrete undecodable response `ON`. -/
theorem decode_failure_propagates_witness :
    pyFloat "ON" = none ∧ pyIntParse "ON" = none
    ∧ (run_get_generator_frequency 1 "ON").result = Except.error PyError.valueError
    ∧ (run_get_generator_frequency 1 "ON").reconnects = 0
    ∧ (run_get_output_state 1 "ON").result = Except.error PyError.valueError
    ∧ (run_get_output_state 1 "ON").reconnects = 0 :=
  ⟨by decide, by decide,
   ((decode_failure_propagates 1 "ON").1 (by decide)).1,
   ((decode_failure_propagates 1 "ON").1 (by decide)).2,
   ((decode_failure_propagates 1 "ON").2 (by decide)).1,
   ((decode_failure_propagates 1 "ON").2 (by decide)).2⟩

/-- Claim C10.  Every boolean setter encodes its state argument through
`str(int(state))`: `True` yields value text `1`, `False` yields `0`, and any
other integer — such as the `2` that Qt check boxes pass for the checked
state — is forwarded verbatim, for all channel selectors. -/
theorem boolean_setters_encode_int : ∀ (i o : Nat),
    set_output_state_cmd o (PyVal.pybool true)
        = "OUTPUT" ++ toString o ++ ":STATE " ++ "1"
    ∧ set_output_state_cmd o (PyVal.pybool false)
        = "OUTPUT" ++ toString o ++ ":STATE " ++ "0"
    ∧ set_output_state_cmd o (PyVal.pyint 2)
        = "OUTPUT" ++ toString o ++ ":STATE " ++ "2"
    ∧ set_int_reset_state_cmd i o (PyVal.pybool true)
        = "PID:IN" ++ toString i ++ ":OUT" ++ toString o ++ ":INT:RES " ++ "1"
    ∧ set_int_reset_state_cmd i o (PyVal.pybool false)
        = "PID:IN" ++ toString i ++ ":OUT" ++ toString o ++ ":INT:RES " ++ "0"
    ∧ set_int_reset_state_cmd i o (PyVal.pyint 2)
        = "PID:IN" ++ toString i ++ ":OUT" ++ toString o ++ ":INT:RES " ++ "2"
    ∧ set_int_hold_state_cmd i o (PyVal.pybool true)
        = "PID:IN" ++ toString i ++ ":OUT" ++ toString o ++ ":INT:HOLD " ++ "1"
    ∧ set_int_hold_state_cmd i o (PyVal.pybool false)
        = "PID:IN" ++ toString i ++ ":OUT" ++ toString o ++ ":INT:HOLD " ++ "0"
    ∧ set_int_hold_state_cmd i o (PyVal.pyint 2)
        = "PID:IN" ++ toString i ++ ":OUT" ++ toString o ++ ":INT:HOLD " ++ "2"
    ∧ set_int_auto_state_cmd i o (PyVal.pybool true)
        = "PID:IN" ++ toString i ++ ":OUT" ++ toString o ++ ":INT:AUTO " ++ "1"
    ∧ set_int_auto_state_cmd i o (PyVal.pybool false)
        = "PID:IN" ++ toString i ++ ":OUT" ++ toString o ++ ":INT:AUTO " ++ "0"
    ∧ set_int_auto_state_cmd i o (PyVal.pyint 2)
        = "PID:IN" ++ toString i ++ ":OUT" ++ toString o ++ ":INT:AUTO " ++ "2"
    ∧ set_inv_state_cmd i o (PyVal.pybool true)
        = "PID:IN" ++ toString i ++ ":OUT" ++ toString o ++ ":INV " ++ "1"
    ∧ set_inv_state_cmd i o (PyVal.pybool false)
        = "PID:IN" ++ toString i ++ ":OUT" ++ toString o ++ ":INV " ++ "0"
    ∧ set_inv_state_cmd i o (PyVal.pyint 2)
        = "PID:IN" ++ toString i ++ ":OUT" ++ toString o ++ ":INV " ++ "2"
    ∧ set_relock_state_cmd i o (PyVal.pybool true)
        = "PID:IN" ++ toString i ++ ":OUT" ++ toString o ++ ":REL " ++ "1"
    ∧ set_relock_state_cmd i o (PyVal.pybool false)
        = "PID:IN" ++ toString i ++ ":OUT" ++ toString o ++ ":REL " ++ "0"
    ∧ set_relock_state_cmd i o (PyVal.pyint 2)
        = "PID:IN" ++ toString i ++ ":OUT" ++ toString o ++ ":REL " ++ "2" := by
  intro i o
  exact ⟨rfl, rfl, rfl, rfl, rfl, rfl, rfl, rfl, rfl, rfl, rfl, rfl, rfl, rfl, rfl,
         rfl, rfl, rfl⟩

end RpLockbox
